import Mathlib

/-!
Verification of the plotting facade in scripts/plot.py.

The file embeds the seven plotting functions of the repository over an
explicit tabular-dataset model.  A call is modelled by the list of figures
it shows (with their rendered data content), the error it raises (if any),
and the trace of dataframe operations it performs, in source order.
Machine reals that the source manipulates symbolically (radians, Pearson
correlation values) are modelled over ℚ where exact, with the square-root
normalisation of a correlation entry kept in exact pair form and its real
value recovered separately.
-/

set_option autoImplicit false

namespace PlotFacade

/-- A tabular dataset: an ordered index plus named columns of rational
values.  This embeds the pandas DataFrame exactly as far as the source
uses it: column lookup by name, the index, and column selection. -/
structure DataFrame where
  idx : List ℚ
  cols : List (String × List ℚ)
  deriving DecidableEq

/-- Column access df[c]: the first column named c, none when absent
(pandas raises KeyError in that case). -/
def DataFrame.getCol (df : DataFrame) (c : String) : Option (List ℚ) :=
  (df.cols.find? (fun p => p.1 == c)).map Prod.snd

/-- Whether a column is present. -/
def DataFrame.hasCol (df : DataFrame) (c : String) : Bool :=
  (df.getCol c).isSome

/-- Column selection df[columns]: the selected (name, data) pairs in
selection order, or the first absent name (pandas raises KeyError when
any requested column is absent). -/
def DataFrame.selectCols (df : DataFrame) : List String → Except String (List (String × List ℚ))
  | [] => .ok []
  | c :: rest =>
    match df.getCol c with
    | none => .error c
    | some v => (df.selectCols rest).map (fun l => (c, v) :: l)

/-- Mean of a list of rationals; the empty list yields 0 by the x / 0 = 0
convention of ℚ. -/
def mean (l : List ℚ) : ℚ := l.sum / (l.length : ℚ)

/-- Centered cross-product sum with explicit centers a and b. -/
def sprod (a b : ℚ) : List ℚ → List ℚ → ℚ
  | [], _ => 0
  | _ :: _, [] => 0
  | x :: xs, y :: ys => (x - a) * (y - b) + sprod a b xs ys

/-- The centered cross-product sum Σ (xᵢ − mean x) · (yᵢ − mean y) from
which the Pearson correlation computed by pandas DataFrame.corr is
built. -/
def sxy (x y : List ℚ) : ℚ := sprod (mean x) (mean y) x y

/-- One entry of the correlation matrix in exact form: the pair
(Sxy, Sxx · Syy).  The rendered real value is Sxy / √(Sxx · Syy); when the
second component is zero (a constant column, too few rows) pandas renders
NaN. -/
def corrCell (x y : List ℚ) : ℚ × ℚ := (sxy x y, sxy x x * sxy y y)

/-- The real value of a correlation cell.  The x / 0 = 0 convention of ℝ
stands in for NaN: the value of an undefined cell is 0, in particular it
is never 1. -/
noncomputable def cellValue (e : ℚ × ℚ) : ℝ := (e.1 : ℝ) / Real.sqrt (e.2 : ℝ)

/-- df[columns].corr(): the pairwise Pearson correlation matrix of the
selected columns, row-major in selection order. -/
def corrMatrix (sel : List (String × List ℚ)) : List (List (ℚ × ℚ)) :=
  sel.map (fun r => sel.map (fun c => corrCell r.2 c.2))

/-- The error taxonomy of the spec.  The source raises pandas KeyError or
a seaborn lookup error for an absent column, and ValueError for an
unrecognized mode; the spec names these missingColumn and invalidMode.
The lengthMismatch constructor exists so that the spec sentence about it
can be stated; it records the claimed LengthMismatchError. -/
inductive PlotError where
  | missingColumn (col : String)
  | invalidMode (mode : String)
  | lengthMismatch
  deriving DecidableEq

/-- The dataframe operations a call performs, in source order. -/
inductive DfOp where
  | readIndex
  | readCol (c : String)
  | selectCols (cs : List String)
  deriving DecidableEq

/-- Pandas semantics of each operation as a state transformer on the
dataframe: df.index, df[c] and df[columns] are all reads and return data
(or a copy) without modifying the frame. -/
def DfOp.apply : DfOp → DataFrame → DataFrame
  | .readIndex, df => df
  | .readCol _, df => df
  | .selectCols _, df => df

/-- The rendered data content of one shown figure. -/
inductive Figure where
  | timeSeries (x : List ℚ) (series : List (String × List ℚ)) (title : String)
  | cleaningImpact (x : List ℚ) (series : List (String × List ℚ))
      (hueData : List ℚ) (title : String)
  | heatmapFig (matrix : List (List (ℚ × ℚ))) (annot : Bool) (fmtStr : String)
      (squareCells : Bool) (title : String)
  | pairGrid (data : List (String × List ℚ)) (corner : Bool) (kind : String)
      (diag : String) (title : String)
  | polarScatter (theta : List ℝ) (r : List ℚ) (c : Option (List ℚ)) (cmap : String)
      (thetaDir : ℤ) (thetaOffset : ℝ) (cbarLabel : Option String) (title : String)
  | histogramFig (var : String) (layers : List (String × List ℚ)) (bins : Nat)
      (kde : Bool) (title : String)

/-- np.deg2rad. -/
noncomputable def deg2rad (d : ℚ) : ℝ := (d : ℝ) * Real.pi / 180

/-- Matplotlib polar axes: the on-screen angle of a data angle θ under the
configured theta offset and theta direction (as set by set_theta_offset
and set_theta_direction). -/
noncomputable def screenAngle (offset : ℝ) (dir : ℤ) (θ : ℝ) : ℝ := offset + (dir : ℝ) * θ

/-- The observable outcome of one call: the figures shown (in order), the
error raised (none on normal return), and the trace of dataframe
operations performed. -/
structure PlotResult where
  shown : List Figure
  err : Option PlotError
  trace : List DfOp

/-- plot_time_series: four overlaid line series GHI, DNI, DHI, Tamb
against the index; the seaborn lookup of an absent y column raises before
plt.show, so an erroring call shows nothing. -/
def plot_time_series (df : DataFrame) (title : String) : PlotResult :=
  match df.getCol "GHI" with
  | none => ⟨[], some (.missingColumn "GHI"), [.readIndex, .readCol "GHI"]⟩
  | some g =>
    match df.getCol "DNI" with
    | none => ⟨[], some (.missingColumn "DNI"),
        [.readIndex, .readCol "GHI", .readIndex, .readCol "DNI"]⟩
    | some dn =>
      match df.getCol "DHI" with
      | none => ⟨[], some (.missingColumn "DHI"),
          [.readIndex, .readCol "GHI", .readIndex, .readCol "DNI",
           .readIndex, .readCol "DHI"]⟩
      | some dh =>
        match df.getCol "Tamb" with
        | none => ⟨[], some (.missingColumn "Tamb"),
            [.readIndex, .readCol "GHI", .readIndex, .readCol "DNI",
             .readIndex, .readCol "DHI", .readIndex, .readCol "Tamb"]⟩
        | some tm =>
          ⟨[.timeSeries df.idx
              [("GHI", g), ("DNI", dn), ("DHI", dh), ("Tamb (Â°C)", tm)] title],
           none,
           [.readIndex, .readCol "GHI", .readIndex, .readCol "DNI",
            .readIndex, .readCol "DHI", .readIndex, .readCol "Tamb"]⟩

/-- The loop body of plot_cleaning_impact: one lineplot per sensor column,
each reading x = Timestamp, y = column, hue = Cleaning in that order. -/
def cleaningLoop (df : DataFrame) : List String →
    List (String × List ℚ) × Option PlotError × List DfOp
  | [] => ([], none, [])
  | c :: rest =>
    match df.getCol "Timestamp" with
    | none => ([], some (.missingColumn "Timestamp"), [.readCol "Timestamp"])
    | some _ts =>
      match df.getCol c with
      | none => ([], some (.missingColumn c), [.readCol "Timestamp", .readCol c])
      | some v =>
        match df.getCol "Cleaning" with
        | none => ([], some (.missingColumn "Cleaning"),
            [.readCol "Timestamp", .readCol c, .readCol "Cleaning"])
        | some _cl =>
          match cleaningLoop df rest with
          | (ls, e, tr) =>
            ((c, v) :: ls, e,
             [.readCol "Timestamp", .readCol c, .readCol "Cleaning"] ++ tr)

/-- plot_cleaning_impact: one figure of per-sensor line series over time,
split by the Cleaning category; plt.show only after the whole loop. -/
def plot_cleaning_impact (df : DataFrame) (sensor_columns : List String)
    (title : String) : PlotResult :=
  match cleaningLoop df sensor_columns with
  | (ls, none, tr) =>
      ⟨[.cleaningImpact ((df.getCol "Timestamp").getD []) ls
          ((df.getCol "Cleaning").getD []) title],
       none, tr⟩
  | (_, some e, tr) => ⟨[], some e, tr⟩

/-- correlation_heatmap: an annotated correlation heatmap, a corner pair
plot, or ValueError for any other method string.  The method is tested
before any column is touched, so an invalid method raises with no
dataframe access and nothing drawn. -/
def correlation_heatmap (df : DataFrame) (columns : List String) (method : String)
    (title : String) : PlotResult :=
  if method == "heatmap" then
    match df.selectCols columns with
    | .error c => ⟨[], some (.missingColumn c), [.selectCols columns]⟩
    | .ok sel =>
        ⟨[.heatmapFig (corrMatrix sel) true ".2f" true title], none,
         [.selectCols columns]⟩
  else if method == "pairplot" then
    match df.selectCols columns with
    | .error c => ⟨[], some (.missingColumn c), [.selectCols columns]⟩
    | .ok sel =>
        ⟨[.pairGrid sel true "scatter" "auto" title], none, [.selectCols columns]⟩
  else
    ⟨[], some (.invalidMode method), []⟩

/-- scatter_matrix: a corner pair plot of the selected columns. -/
def scatter_matrix (df : DataFrame) (columns : List String) (title : String) :
    PlotResult :=
  match df.selectCols columns with
  | .error c => ⟨[], some (.missingColumn c), [.selectCols columns]⟩
  | .ok sel =>
      ⟨[.pairGrid sel true "scatter" "auto" title], none, [.selectCols columns]⟩

/-- plot_wind_polar: converts the direction column from degrees to
radians, configures the polar axes clockwise with zero at the top, and
scatters (direction, speed).  The source passes cmap but no per-point
color data (no c argument), which the c field records as none; the color
bar label is set to the wind-speed column name. -/
noncomputable def plot_wind_polar (df : DataFrame) (ws_column wd_column : String)
    (title : String) : PlotResult :=
  match df.getCol wd_column with
  | none => ⟨[], some (.missingColumn wd_column), [.readCol wd_column]⟩
  | some wdv =>
    match df.getCol ws_column with
    | none => ⟨[], some (.missingColumn ws_column),
        [.readCol wd_column, .readCol ws_column]⟩
    | some wsv =>
        ⟨[.polarScatter (wdv.map deg2rad) wsv none "viridis" (-1) (Real.pi / 2)
            (some ws_column) title],
         none, [.readCol wd_column, .readCol ws_column]⟩

/-- temperature_analysis: computes df[columns].corr() first (so an absent
column raises regardless of plot_type), then renders an annotated heatmap,
a regression pair grid, or raises ValueError for any other plot_type. -/
def temperature_analysis (df : DataFrame) (columns : List String) (plot_type : String)
    (title : String) : PlotResult :=
  match df.selectCols columns with
  | .error c => ⟨[], some (.missingColumn c), [.selectCols columns]⟩
  | .ok sel =>
    let correlation_matrix := corrMatrix sel
    if plot_type == "heatmap" then
      ⟨[.heatmapFig correlation_matrix true ".2f" false
          ("Correlation Heatmap of " ++ title)],
       none, [.selectCols columns]⟩
    else if plot_type == "scatter" then
      ⟨[.pairGrid sel false "reg" "kde"
          "Scatter Plot Matrix of Temperature, Solar Radiation, and Humidity"],
       none, [.selectCols columns]⟩
    else
      ⟨[], some (.invalidMode plot_type), [.selectCols columns]⟩

/-- The inner loop of plot_histograms for one variable: one histplot per
(dataframe, region) pair of zip(dataframes, region_names); df[var] raises
on the first dataframe missing the variable. -/
def histLayers (var : String) : List (DataFrame × String) →
    Except String (List (String × List ℚ)) × List DfOp
  | [] => (.ok [], [])
  | (df, region) :: rest =>
    match df.getCol var with
    | none => (.error var, [.readCol var])
    | some v =>
      match histLayers var rest with
      | (r, tr) => (r.map (fun l => (region, v) :: l), .readCol var :: tr)

/-- The outer loop of plot_histograms: one figure per variable, shown at
the end of each iteration, so figures of earlier variables are already
shown when a later variable raises. -/
def plot_histograms_go (pairs : List (DataFrame × String)) (bins : Nat) :
    List String → PlotResult
  | [] => ⟨[], none, []⟩
  | var :: rest =>
    match histLayers var pairs with
    | (.error c, tr) => ⟨[], some (.missingColumn c), tr⟩
    | (.ok layers, tr) =>
      match plot_histograms_go pairs bins rest with
      | r =>
        ⟨.histogramFig var layers bins true ("Histogram of " ++ var) :: r.shown,
         r.err, tr ++ r.trace⟩

/-- plot_histograms: per-variable overlaid step histograms with density
curves, one layer per (dataframe, region) pair; zip silently truncates to
the shorter of the two lists.  The second parameter is the variables list
of the source (variables is reserved in Lean). -/
def plot_histograms (dataframes : List DataFrame) (vars : List String)
    (region_names : List String) (bins : Nat) : PlotResult :=
  plot_histograms_go (dataframes.zip region_names) bins vars

/-- Whether a variable is present in every zipped dataframe. -/
def presentAll (pairs : List (DataFrame × String)) (v : String) : Bool :=
  pairs.all (fun p => p.1.hasCol v)

/-- The matrix rendered by the first shown figure of a result when it is
an annotated heatmap, [] otherwise. -/
def heatmapMatrixOf (r : PlotResult) : List (List (ℚ × ℚ)) :=
  match r.shown with
  | Figure.heatmapFig m _ _ _ _ :: _ => m
  | _ => []

/-- The number of overlaid layers of a histogram figure. -/
def figLayerCount : Figure → Nat
  | .histogramFig _ layers _ _ _ => layers.length
  | _ => 0

/-- A two-row dataset carrying every column the functions reference, for
concrete instantiations. -/
def demoDf : DataFrame :=
  ⟨[0, 1],
   [("GHI", [1, 2]), ("DNI", [2, 3]), ("DHI", [3, 5]), ("Tamb", [4, 7]),
    ("Timestamp", [0, 1]), ("Cleaning", [0, 1]), ("WS", [1, 2]), ("WD", [0, 90])]⟩

/-- A dataset with a single non-constant column GHI and one column DNI. -/
def histDfA : DataFrame := ⟨[0, 1], [("GHI", [1, 2]), ("DNI", [3, 4])]⟩

/-- A second region dataset with column GHI. -/
def histDfB : DataFrame := ⟨[0, 1], [("GHI", [3, 4])]⟩

/-- A dataset whose only column is constant. -/
def constDf : DataFrame := ⟨[0, 1], [("GHI", [1, 1])]⟩

/-! Helper lemmas about the correlation algebra. -/

theorem sprod_comm (a b : ℚ) : ∀ (x y : List ℚ), sprod a b x y = sprod b a y x
  | [], [] => rfl
  | [], _ :: _ => rfl
  | _ :: _, [] => rfl
  | x :: xs, y :: ys => by
      simp only [sprod, sprod_comm a b xs ys]; ring

theorem sxy_comm (x y : List ℚ) : sxy x y = sxy y x := sprod_comm _ _ x y

theorem sprod_self_nonneg (a : ℚ) : ∀ (x : List ℚ), 0 ≤ sprod a a x x
  | [] => le_refl 0
  | x :: xs => by
      have h := sprod_self_nonneg a xs
      simp only [sprod]
      nlinarith [sq_nonneg (x - a)]

theorem sxx_nonneg (x : List ℚ) : 0 ≤ sxy x x := sprod_self_nonneg _ x

theorem corrCell_comm (x y : List ℚ) : corrCell x y = corrCell y x := by
  unfold corrCell
  rw [sxy_comm x y, mul_comm (sxy x x) (sxy y y)]

theorem cellValue_corrCell_self (x : List ℚ) (h : sxy x x ≠ 0) :
    cellValue (corrCell x x) = 1 := by
  have hpos : 0 < sxy x x := lt_of_le_of_ne (sxx_nonneg x) (Ne.symm h)
  unfold cellValue corrCell
  have hcast : ((sxy x x * sxy x x : ℚ) : ℝ) = (sxy x x : ℝ) * (sxy x x : ℝ) := by
    push_cast; ring
  simp only [hcast]
  rw [Real.sqrt_mul_self (by positivity)]
  exact div_self (by exact_mod_cast h)

/-! Helper lemmas about column selection. -/

theorem selectCols_ok_length (df : DataFrame) :
    ∀ (cs : List String) (sel : List (String × List ℚ)),
      df.selectCols cs = .ok sel → sel.length = cs.length := by
  intro cs
  induction cs with
  | nil =>
      intro sel h
      simp only [DataFrame.selectCols] at h
      cases h; rfl
  | cons c rest ih =>
      intro sel h
      simp only [DataFrame.selectCols] at h
      cases hc : df.getCol c with
      | none => rw [hc] at h; cases h
      | some v =>
          rw [hc] at h
          cases hr : df.selectCols rest with
          | error e => rw [hr] at h; cases h
          | ok sel0 =>
              rw [hr] at h
              simp only [Except.map] at h
              cases h
              simp [ih sel0 hr]

theorem selectCols_ok_of_forall (df : DataFrame) :
    ∀ (cs : List String), (∀ c ∈ cs, df.hasCol c = true) →
      ∃ sel, df.selectCols cs = .ok sel := by
  intro cs
  induction cs with
  | nil => intro _; exact ⟨[], rfl⟩
  | cons c rest ih =>
      intro h
      have hc : df.hasCol c = true := h c (by simp)
      rw [DataFrame.hasCol, Option.isSome_iff_exists] at hc
      obtain ⟨v, hv⟩ := hc
      obtain ⟨sel0, hs⟩ := ih (fun x hx => h x (by simp [hx]))
      refine ⟨(c, v) :: sel0, ?_⟩
      simp [DataFrame.selectCols, hv, hs, Except.map]

theorem selectCols_error_of_exists (df : DataFrame) :
    ∀ (cs : List String), (∃ c ∈ cs, df.hasCol c = false) →
      ∃ c, df.selectCols cs = .error c ∧ df.hasCol c = false := by
  intro cs
  induction cs with
  | nil => rintro ⟨c, hc, -⟩; simp at hc
  | cons c rest ih =>
      rintro ⟨d, hd, hdf⟩
      cases hc : df.getCol c with
      | none =>
          refine ⟨c, ?_, ?_⟩
          · simp [DataFrame.selectCols, hc]
          · simp [DataFrame.hasCol, hc]
      | some v =>
          have hdrest : d ∈ rest := by
            rcases List.mem_cons.mp hd with h1 | h1
            · exfalso; subst h1; simp [DataFrame.hasCol, hc] at hdf
            · exact h1
          obtain ⟨e, he, hef⟩ := ih ⟨d, hdrest, hdf⟩
          refine ⟨e, ?_, hef⟩
          simp [DataFrame.selectCols, hc, he, Except.map]

/-! Helper lemmas about the operation trace. -/

theorem DfOp.apply_eq (op : DfOp) (df : DataFrame) : op.apply df = df := by
  cases op <;> rfl

theorem foldl_apply_eq (l : List DfOp) :
    ∀ df : DataFrame, List.foldl (fun s op => DfOp.apply op s) df l = df := by
  induction l with
  | nil => intro df; rfl
  | cons op rest ih => intro df; simp [List.foldl, DfOp.apply_eq, ih]

/-! Helper lemmas about the cleaning-impact loop. -/

theorem cleaningLoop_ok (df : DataFrame) (hts : df.hasCol "Timestamp" = true)
    (hcl : df.hasCol "Cleaning" = true) :
    ∀ (scols : List String), (∀ c ∈ scols, df.hasCol c = true) →
      ∃ ls tr, cleaningLoop df scols = (ls, none, tr) := by
  rw [DataFrame.hasCol, Option.isSome_iff_exists] at hts hcl
  obtain ⟨ts, hts⟩ := hts
  obtain ⟨cl, hcl⟩ := hcl
  intro scols
  induction scols with
  | nil => intro _; exact ⟨[], [], rfl⟩
  | cons c rest ih =>
      intro h
      have hc : df.hasCol c = true := h c (by simp)
      rw [DataFrame.hasCol, Option.isSome_iff_exists] at hc
      obtain ⟨v, hv⟩ := hc
      obtain ⟨ls, tr, hrec⟩ := ih (fun x hx => h x (by simp [hx]))
      refine ⟨(c, v) :: ls,
        [.readCol "Timestamp", .readCol c, .readCol "Cleaning"] ++ tr, ?_⟩
      simp [cleaningLoop, hts, hv, hcl, hrec]

theorem cleaningLoop_error (df : DataFrame) :
    ∀ (scols : List String), scols ≠ [] →
      (df.hasCol "Timestamp" = false ∨ df.hasCol "Cleaning" = false ∨
        ∃ c ∈ scols, df.hasCol c = false) →
      ∃ c ls tr, cleaningLoop df scols = (ls, some (.missingColumn c), tr) ∧
        df.hasCol c = false := by
  intro scols
  induction scols with
  | nil => intro h _; exact absurd rfl h
  | cons c rest ih =>
      intro _ hcase
      cases hts : df.getCol "Timestamp" with
      | none =>
          exact ⟨"Timestamp", [], [.readCol "Timestamp"],
            by simp [cleaningLoop, hts], by simp [DataFrame.hasCol, hts]⟩
      | some ts =>
          cases hc : df.getCol c with
          | none =>
              exact ⟨c, [], [.readCol "Timestamp", .readCol c],
                by simp [cleaningLoop, hts, hc], by simp [DataFrame.hasCol, hc]⟩
          | some v =>
              cases hcl : df.getCol "Cleaning" with
              | none =>
                  exact ⟨"Cleaning", [],
                    [.readCol "Timestamp", .readCol c, .readCol "Cleaning"],
                    by simp [cleaningLoop, hts, hc, hcl],
                    by simp [DataFrame.hasCol, hcl]⟩
              | some cl =>
                  have hrest : ∃ d ∈ rest, df.hasCol d = false := by
                    rcases hcase with h1 | h1 | ⟨d, hd, hdf⟩
                    · exfalso; simp [DataFrame.hasCol, hts] at h1
                    · exfalso; simp [DataFrame.hasCol, hcl] at h1
                    · rcases List.mem_cons.mp hd with h2 | h2
                      · exfalso; subst h2; simp [DataFrame.hasCol, hc] at hdf
                      · exact ⟨d, h2, hdf⟩
                  have hne : rest ≠ [] := by
                    obtain ⟨d, hd, -⟩ := hrest
                    intro hnil; rw [hnil] at hd; simp at hd
                  obtain ⟨e, ls, tr, hrec, hef⟩ :=
                    ih hne (Or.inr (Or.inr hrest))
                  refine ⟨e, (c, v) :: ls,
                    [.readCol "Timestamp", .readCol c, .readCol "Cleaning"] ++ tr,
                    ?_, hef⟩
                  simp [cleaningLoop, hts, hc, hcl, hrec]

/-! Helper lemmas about the histogram loops. -/

theorem histLayers_ok (v : String) :
    ∀ (pairs : List (DataFrame × String)), presentAll pairs v = true →
      ∃ layers tr, histLayers v pairs = (.ok layers, tr) ∧
        layers.length = pairs.length := by
  intro pairs
  induction pairs with
  | nil => intro _; exact ⟨[], [], rfl, rfl⟩
  | cons p rest ih =>
      intro h
      simp only [presentAll, List.all_cons, Bool.and_eq_true] at h
      obtain ⟨h1, h2⟩ := h
      rw [DataFrame.hasCol, Option.isSome_iff_exists] at h1
      obtain ⟨w, hw⟩ := h1
      obtain ⟨layers, tr, hrec, hlen⟩ := ih h2
      refine ⟨(p.2, w) :: layers, .readCol v :: tr, ?_, by simp [hlen]⟩
      obtain ⟨pdf, pr⟩ := p
      simp [histLayers, hw, hrec, Except.map]

theorem histLayers_error (v : String) :
    ∀ (pairs : List (DataFrame × String)), presentAll pairs v = false →
      ∃ tr, histLayers v pairs = (.error v, tr) := by
  intro pairs
  induction pairs with
  | nil => intro h; simp [presentAll] at h
  | cons p rest ih =>
      obtain ⟨pdf, pr⟩ := p
      intro h
      cases hw : pdf.getCol v with
      | none =>
          exact ⟨[.readCol v], by simp [histLayers, hw]⟩
      | some w =>
          have h1 : pdf.hasCol v = true := by simp [DataFrame.hasCol, hw]
          have h2 : presentAll rest v = false := by
            simp only [presentAll, List.all_cons, h1, Bool.true_and] at h
            exact h
          obtain ⟨tr, hrec⟩ := ih h2
          exact ⟨.readCol v :: tr, by simp [histLayers, hw, hrec, Except.map]⟩

theorem plot_histograms_go_ok (pairs : List (DataFrame × String)) (bins : Nat) :
    ∀ (vs : List String), (∀ v ∈ vs, presentAll pairs v = true) →
      (plot_histograms_go pairs bins vs).err = none ∧
      (plot_histograms_go pairs bins vs).shown.length = vs.length ∧
      ∀ f ∈ (plot_histograms_go pairs bins vs).shown,
        figLayerCount f = pairs.length := by
  intro vs
  induction vs with
  | nil => intro _; exact ⟨rfl, rfl, by simp [plot_histograms_go]⟩
  | cons v rest ih =>
      intro h
      obtain ⟨layers, tr, hl, hlen⟩ := histLayers_ok v pairs (h v (by simp))
      obtain ⟨ih1, ih2, ih3⟩ := ih (fun x hx => h x (by simp [hx]))
      refine ⟨?_, ?_, ?_⟩
      · simp [plot_histograms_go, hl, ih1]
      · simp [plot_histograms_go, hl, ih2]
      · intro f hf
        simp only [plot_histograms_go, hl, List.mem_cons] at hf
        rcases hf with hf | hf
        · subst hf; simp [figLayerCount, hlen]
        · exact ih3 f hf

theorem plot_histograms_go_error (pairs : List (DataFrame × String)) (bins : Nat) :
    ∀ (vs : List String), (∃ v ∈ vs, presentAll pairs v = false) →
      (∃ c, (plot_histograms_go pairs bins vs).err = some (.missingColumn c)) ∧
      (plot_histograms_go pairs bins vs).shown.length =
        (vs.takeWhile (fun v => presentAll pairs v)).length := by
  intro vs
  induction vs with
  | nil => rintro ⟨v, hv, -⟩; simp at hv
  | cons v rest ih =>
      rintro ⟨w, hw, hwf⟩
      cases hv : presentAll pairs v with
      | false =>
          obtain ⟨tr, hl⟩ := histLayers_error v pairs hv
          refine ⟨⟨v, ?_⟩, ?_⟩
          · simp [plot_histograms_go, hl]
          · simp [plot_histograms_go, hl, List.takeWhile_cons, hv]
      | true =>
          obtain ⟨layers, tr, hl, -⟩ := histLayers_ok v pairs hv
          have hwrest : ∃ w ∈ rest, presentAll pairs w = false := by
            rcases List.mem_cons.mp hw with h2 | h2
            · exfalso; subst h2; rw [hv] at hwf; cases hwf
            · exact ⟨w, h2, hwf⟩
          obtain ⟨⟨c, ihc⟩, ihlen⟩ := ih hwrest
          refine ⟨⟨c, ?_⟩, ?_⟩
          · simp [plot_histograms_go, hl, ihc]
          · simp [plot_histograms_go, hl, List.takeWhile_cons, hv, ihlen]

/-! Helper lemmas about the rendered correlation matrix. -/

theorem corrMatrix_entry (sel : List (String × List ℚ)) (i j : Nat)
    (hi : i < sel.length) (hj : j < sel.length) :
    ((corrMatrix sel).getD i []).getD j (0, 0)
      = corrCell (sel.get ⟨i, hi⟩).2 (sel.get ⟨j, hj⟩).2 := by
  have hmi : i < (corrMatrix sel).length := by simpa [corrMatrix] using hi
  rw [List.getD_eq_getElem _ _ hmi]
  have hrow : j < ((corrMatrix sel)[i]).length := by
    simpa [corrMatrix] using hj
  rw [List.getD_eq_getElem _ _ hrow]
  simp [corrMatrix]

theorem corrMatrix_getD_symm (sel : List (String × List ℚ)) (i j : Nat) :
    ((corrMatrix sel).getD i []).getD j (0, 0)
      = ((corrMatrix sel).getD j []).getD i (0, 0) := by
  by_cases hi : i < sel.length
  · by_cases hj : j < sel.length
    · rw [corrMatrix_entry sel i j hi hj, corrMatrix_entry sel j i hj hi,
        corrCell_comm]
    · have hj' : sel.length ≤ j := le_of_not_lt hj
      have hmi : i < (corrMatrix sel).length := by simpa [corrMatrix] using hi
      rw [List.getD_eq_getElem _ _ hmi]
      have hrl : ((corrMatrix sel)[i]).length ≤ j := by
        simpa [corrMatrix] using hj'
      rw [List.getD_eq_default _ _ hrl]
      have hlen : (corrMatrix sel).length ≤ j := by simpa [corrMatrix] using hj'
      rw [List.getD_eq_default _ _ hlen]
      simp
  · have hi' : sel.length ≤ i := le_of_not_lt hi
    have hlen : (corrMatrix sel).length ≤ i := by simpa [corrMatrix] using hi'
    rw [List.getD_eq_default _ _ hlen]
    by_cases hj : j < sel.length
    · have hmj : j < (corrMatrix sel).length := by simpa [corrMatrix] using hj
      rw [List.getD_eq_getElem _ _ hmj]
      have hrl : ((corrMatrix sel)[j]).length ≤ i := by
        simpa [corrMatrix] using hi'
      rw [List.getD_eq_default _ _ hrl]
      simp
    · have hj' : sel.length ≤ j := le_of_not_lt hj
      have hlenj : (corrMatrix sel).length ≤ j := by
        simpa [corrMatrix] using hj'
      rw [List.getD_eq_default _ _ hlenj]
      simp

/-! Claim theorems. -/

/-- C1 counterexample: calling plot_histograms with 2 datasets and 3
region names raises nothing and shows one figure, refuting the claim that
it raises LengthMismatchError and draws nothing. -/
theorem C1_counterexample :
    (plot_histograms [histDfA, histDfB] ["GHI"] ["A", "B", "C"] 30).err = none
    ∧ (plot_histograms [histDfA, histDfB] ["GHI"] ["A", "B", "C"] 30).shown.length
        = 1 := by
  decide

/-- C1 (amended): with mismatched list lengths plot_histograms raises no
error at all: zip silently truncates to the shorter list, and (provided
every variable is present in the zipped dataframes) the call returns
normally and draws one figure per variable, each overlaying one layer per
zipped (dataset, region) pair, i.e. min of the two lengths. -/
theorem C1_zip_truncation (dfs : List DataFrame) (vs names : List String)
    (bins : Nat) (hall : ∀ v ∈ vs, presentAll (dfs.zip names) v = true) :
    (plot_histograms dfs vs names bins).err = none
    ∧ (plot_histograms dfs vs names bins).shown.length = vs.length
    ∧ ∀ f ∈ (plot_histograms dfs vs names bins).shown,
        figLayerCount f = min dfs.length names.length := by
  obtain ⟨h1, h2, h3⟩ := plot_histograms_go_ok (dfs.zip names) bins vs hall
  exact ⟨h1, h2, fun f hf => (h3 f hf).trans (by rw [List.length_zip])⟩

/-- C1 witness: the amended statement at 2 datasets and 3 region names. -/
theorem C1_zip_truncation_witness :
    (plot_histograms [histDfA, histDfB] ["GHI"] ["A", "B", "C"] 30).err = none
    ∧ (plot_histograms [histDfA, histDfB] ["GHI"] ["A", "B", "C"] 30).shown.length
        = 1
    ∧ ∀ f ∈ (plot_histograms [histDfA, histDfB] ["GHI"] ["A", "B", "C"] 30).shown,
        figLayerCount f = 2 :=
  C1_zip_truncation [histDfA, histDfB] ["GHI"] ["A", "B", "C"] 30 (by decide)

/-- C2 counterexample: a fully valid call of plot_histograms with two
variables shows two figures, refuting exactly one artifact per call. -/
theorem C2_counterexample :
    (plot_histograms [histDfA] ["GHI", "DNI"] ["A"] 30).err = none
    ∧ (plot_histograms [histDfA] ["GHI", "DNI"] ["A"] 30).shown.length = 2 := by
  decide

/-- C2 (amended): on valid inputs every plotting function returns
normally; each single-chart function shows exactly one figure per call,
while plot_histograms shows exactly one figure per requested variable
(hence not one per call when the variable list has length other than
one). -/
theorem C2_one_artifact_per_call :
    (∀ df t, df.hasCol "GHI" = true → df.hasCol "DNI" = true →
       df.hasCol "DHI" = true → df.hasCol "Tamb" = true →
       (plot_time_series df t).err = none
       ∧ (plot_time_series df t).shown.length = 1)
    ∧ (∀ df scols t, df.hasCol "Timestamp" = true → df.hasCol "Cleaning" = true →
        (∀ c ∈ scols, df.hasCol c = true) →
        (plot_cleaning_impact df scols t).err = none
        ∧ (plot_cleaning_impact df scols t).shown.length = 1)
    ∧ (∀ df cols m t, (m = "heatmap" ∨ m = "pairplot") →
        (∀ c ∈ cols, df.hasCol c = true) →
        (correlation_heatmap df cols m t).err = none
        ∧ (correlation_heatmap df cols m t).shown.length = 1)
    ∧ (∀ df cols t, (∀ c ∈ cols, df.hasCol c = true) →
        (scatter_matrix df cols t).err = none
        ∧ (scatter_matrix df cols t).shown.length = 1)
    ∧ (∀ df ws wd t, df.hasCol ws = true → df.hasCol wd = true →
        (plot_wind_polar df ws wd t).err = none
        ∧ (plot_wind_polar df ws wd t).shown.length = 1)
    ∧ (∀ df cols pt t, (pt = "heatmap" ∨ pt = "scatter") →
        (∀ c ∈ cols, df.hasCol c = true) →
        (temperature_analysis df cols pt t).err = none
        ∧ (temperature_analysis df cols pt t).shown.length = 1)
    ∧ (∀ dfs vs names bins, (∀ v ∈ vs, presentAll (dfs.zip names) v = true) →
        (plot_histograms dfs vs names bins).err = none
        ∧ (plot_histograms dfs vs names bins).shown.length = vs.length) := by
  refine ⟨?_, ?_, ?_, ?_, ?_, ?_, ?_⟩
  · intro df t h1 h2 h3 h4
    rw [DataFrame.hasCol, Option.isSome_iff_exists] at h1 h2 h3 h4
    obtain ⟨g, hg⟩ := h1
    obtain ⟨dn, hdn⟩ := h2
    obtain ⟨dh, hdh⟩ := h3
    obtain ⟨tm, htm⟩ := h4
    refine ⟨?_, ?_⟩ <;> simp [plot_time_series, hg, hdn, hdh, htm]
  · intro df scols t hts hcl hall
    obtain ⟨ls, tr, hloop⟩ := cleaningLoop_ok df hts hcl scols hall
    refine ⟨?_, ?_⟩ <;> simp [plot_cleaning_impact, hloop]
  · intro df cols m t hm hall
    obtain ⟨sel, hsel⟩ := selectCols_ok_of_forall df cols hall
    rcases hm with rfl | rfl
    · refine ⟨?_, ?_⟩ <;> simp [correlation_heatmap, hsel]
    · refine ⟨?_, ?_⟩ <;> simp [correlation_heatmap, hsel]
  · intro df cols t hall
    obtain ⟨sel, hsel⟩ := selectCols_ok_of_forall df cols hall
    refine ⟨?_, ?_⟩ <;> simp [scatter_matrix, hsel]
  · intro df ws wd t hws hwd
    rw [DataFrame.hasCol, Option.isSome_iff_exists] at hws hwd
    obtain ⟨wsv, hwsv⟩ := hws
    obtain ⟨wdv, hwdv⟩ := hwd
    refine ⟨?_, ?_⟩ <;> simp [plot_wind_polar, hwsv, hwdv]
  · intro df cols pt t hpt hall
    obtain ⟨sel, hsel⟩ := selectCols_ok_of_forall df cols hall
    rcases hpt with rfl | rfl
    · refine ⟨?_, ?_⟩ <;> simp [temperature_analysis, hsel]
    · refine ⟨?_, ?_⟩ <;> simp [temperature_analysis, hsel]
  · intro dfs vs names bins hall
    obtain ⟨h1, h2, -⟩ := plot_histograms_go_ok (dfs.zip names) bins vs hall
    exact ⟨h1, h2⟩

/-- C2 witness: concrete valid calls of each function. -/
theorem C2_one_artifact_per_call_witness :
    ((plot_time_series demoDf "t").err = none
      ∧ (plot_time_series demoDf "t").shown.length = 1)
    ∧ ((plot_cleaning_impact demoDf ["GHI"] "t").err = none
      ∧ (plot_cleaning_impact demoDf ["GHI"] "t").shown.length = 1)
    ∧ ((correlation_heatmap demoDf ["GHI", "DNI"] "heatmap" "t").err = none
      ∧ (correlation_heatmap demoDf ["GHI", "DNI"] "heatmap" "t").shown.length = 1)
    ∧ ((scatter_matrix demoDf ["GHI"] "t").err = none
      ∧ (scatter_matrix demoDf ["GHI"] "t").shown.length = 1)
    ∧ ((plot_wind_polar demoDf "WS" "WD" "t").err = none
      ∧ (plot_wind_polar demoDf "WS" "WD" "t").shown.length = 1)
    ∧ ((temperature_analysis demoDf ["GHI", "Tamb"] "heatmap" "t").err = none
      ∧ (temperature_analysis demoDf ["GHI", "Tamb"] "heatmap" "t").shown.length = 1)
    ∧ ((plot_histograms [histDfA, histDfB] ["GHI"] ["A", "B"] 30).err = none
      ∧ (plot_histograms [histDfA, histDfB] ["GHI"] ["A", "B"] 30).shown.length = 1) :=
  ⟨C2_one_artifact_per_call.1 demoDf "t" (by decide) (by decide) (by decide)
      (by decide),
   C2_one_artifact_per_call.2.1 demoDf ["GHI"] "t" (by decide) (by decide)
      (by decide),
   C2_one_artifact_per_call.2.2.1 demoDf ["GHI", "DNI"] "heatmap" "t"
      (Or.inl rfl) (by decide),
   C2_one_artifact_per_call.2.2.2.1 demoDf ["GHI"] "t" (by decide),
   C2_one_artifact_per_call.2.2.2.2.1 demoDf "WS" "WD" "t" (by decide) (by decide),
   C2_one_artifact_per_call.2.2.2.2.2.1 demoDf ["GHI", "Tamb"] "heatmap" "t"
      (Or.inl rfl) (by decide),
   C2_one_artifact_per_call.2.2.2.2.2.2 [histDfA, histDfB] ["GHI"] ["A", "B"] 30
      (by decide)⟩

/-- C3 counterexample: plot_histograms with a first variable present and a
second variable absent shows the figure of the first variable before the
missing-column error propagates, refuting that nothing is drawn. -/
theorem C3_counterexample :
    (plot_histograms [histDfA] ["GHI", "RH"] ["A"] 30).err
        = some (.missingColumn "RH")
    ∧ (plot_histograms [histDfA] ["GHI", "RH"] ["A"] 30).shown.length = 1 := by
  decide

/-- C3 (amended): a call referencing an absent column raises the
missing-column error; the single-figure functions show nothing before the
error propagates, but plot_histograms has already shown one figure for
each variable preceding the first failing one. -/
theorem C3_missing_column :
    (∀ df t, ¬(df.hasCol "GHI" = true ∧ df.hasCol "DNI" = true
        ∧ df.hasCol "DHI" = true ∧ df.hasCol "Tamb" = true) →
       (plot_time_series df t).shown = []
       ∧ ∃ c, (plot_time_series df t).err = some (.missingColumn c)
           ∧ df.hasCol c = false)
    ∧ (∀ df scols t, scols ≠ [] →
        (df.hasCol "Timestamp" = false ∨ df.hasCol "Cleaning" = false
          ∨ ∃ c ∈ scols, df.hasCol c = false) →
        (plot_cleaning_impact df scols t).shown = []
        ∧ ∃ c, (plot_cleaning_impact df scols t).err = some (.missingColumn c)
            ∧ df.hasCol c = false)
    ∧ (∀ df cols m t, (m = "heatmap" ∨ m = "pairplot") →
        (∃ c ∈ cols, df.hasCol c = false) →
        (correlation_heatmap df cols m t).shown = []
        ∧ ∃ c, (correlation_heatmap df cols m t).err = some (.missingColumn c)
            ∧ df.hasCol c = false)
    ∧ (∀ df cols t, (∃ c ∈ cols, df.hasCol c = false) →
        (scatter_matrix df cols t).shown = []
        ∧ ∃ c, (scatter_matrix df cols t).err = some (.missingColumn c)
            ∧ df.hasCol c = false)
    ∧ (∀ df ws wd t, (df.hasCol wd = false ∨ df.hasCol ws = false) →
        (plot_wind_polar df ws wd t).shown = []
        ∧ ∃ c, (plot_wind_polar df ws wd t).err = some (.missingColumn c)
            ∧ df.hasCol c = false)
    ∧ (∀ df cols pt t, (∃ c ∈ cols, df.hasCol c = false) →
        (temperature_analysis df cols pt t).shown = []
        ∧ ∃ c, (temperature_analysis df cols pt t).err = some (.missingColumn c)
            ∧ df.hasCol c = false)
    ∧ (∀ dfs vs names bins, (∃ v ∈ vs, presentAll (dfs.zip names) v = false) →
        (∃ c, (plot_histograms dfs vs names bins).err = some (.missingColumn c))
        ∧ (plot_histograms dfs vs names bins).shown.length
            = (vs.takeWhile (fun v => presentAll (dfs.zip names) v)).length) := by
  refine ⟨?_, ?_, ?_, ?_, ?_, ?_, ?_⟩
  · intro df t hmiss
    cases hg : df.getCol "GHI" with
    | none =>
        exact ⟨by simp [plot_time_series, hg],
          "GHI", by simp [plot_time_series, hg], by simp [DataFrame.hasCol, hg]⟩
    | some g =>
      cases hdn : df.getCol "DNI" with
      | none =>
          exact ⟨by simp [plot_time_series, hg, hdn],
            "DNI", by simp [plot_time_series, hg, hdn],
            by simp [DataFrame.hasCol, hdn]⟩
      | some dn =>
        cases hdh : df.getCol "DHI" with
        | none =>
            exact ⟨by simp [plot_time_series, hg, hdn, hdh],
              "DHI", by simp [plot_time_series, hg, hdn, hdh],
              by simp [DataFrame.hasCol, hdh]⟩
        | some dh =>
          cases htm : df.getCol "Tamb" with
          | none =>
              exact ⟨by simp [plot_time_series, hg, hdn, hdh, htm],
                "Tamb", by simp [plot_time_series, hg, hdn, hdh, htm],
                by simp [DataFrame.hasCol, htm]⟩
          | some tm =>
              exact absurd
                (by simp [DataFrame.hasCol, hg, hdn, hdh, htm]) hmiss
  · intro df scols t hne hcase
    obtain ⟨c, ls, tr, hloop, hcf⟩ := cleaningLoop_error df scols hne hcase
    exact ⟨by simp [plot_cleaning_impact, hloop],
      c, by simp [plot_cleaning_impact, hloop], hcf⟩
  · intro df cols m t hm hex
    obtain ⟨c, hsel, hcf⟩ := selectCols_error_of_exists df cols hex
    rcases hm with rfl | rfl
    · exact ⟨by simp [correlation_heatmap, hsel],
        c, by simp [correlation_heatmap, hsel], hcf⟩
    · exact ⟨by simp [correlation_heatmap, hsel],
        c, by simp [correlation_heatmap, hsel], hcf⟩
  · intro df cols t hex
    obtain ⟨c, hsel, hcf⟩ := selectCols_error_of_exists df cols hex
    exact ⟨by simp [scatter_matrix, hsel],
      c, by simp [scatter_matrix, hsel], hcf⟩
  · intro df ws wd t hcase
    cases hwd : df.getCol wd with
    | none =>
        exact ⟨by simp [plot_wind_polar, hwd],
          wd, by simp [plot_wind_polar, hwd], by simp [DataFrame.hasCol, hwd]⟩
    | some wdv =>
      cases hws : df.getCol ws with
      | none =>
          exact ⟨by simp [plot_wind_polar, hwd, hws],
            ws, by simp [plot_wind_polar, hwd, hws],
            by simp [DataFrame.hasCol, hws]⟩
      | some wsv =>
          exfalso
          rcases hcase with h1 | h1
          · simp [DataFrame.hasCol, hwd] at h1
          · simp [DataFrame.hasCol, hws] at h1
  · intro df cols pt t hex
    obtain ⟨c, hsel, hcf⟩ := selectCols_error_of_exists df cols hex
    exact ⟨by simp [temperature_analysis, hsel],
      c, by simp [temperature_analysis, hsel], hcf⟩
  · intro dfs vs names bins hex
    exact plot_histograms_go_error (dfs.zip names) bins vs hex

/-- C3 witness: a time-series call on a dataset without DHI shows nothing
and raises the missing-column error, and a histogram call whose second
variable is absent shows exactly the one figure preceding the failure. -/
theorem C3_missing_column_witness :
    ((plot_time_series histDfA "t").shown = []
      ∧ ∃ c, (plot_time_series histDfA "t").err = some (.missingColumn c)
          ∧ histDfA.hasCol c = false)
    ∧ ((∃ c, (plot_histograms [histDfA] ["GHI", "RH"] ["A"] 30).err
          = some (.missingColumn c))
      ∧ (plot_histograms [histDfA] ["GHI", "RH"] ["A"] 30).shown.length = 1) :=
  ⟨C3_missing_column.1 histDfA "t" (by decide),
   C3_missing_column.2.2.2.2.2.2 [histDfA] ["GHI", "RH"] ["A"] 30
     ⟨"RH", by decide, by decide⟩⟩

/-- C4 (confirmed): an unrecognized mode string makes correlation_heatmap
raise the invalid-mode error with nothing drawn and no dataframe access;
temperature_analysis computes the correlation first, so whenever its
column selection succeeds an unrecognized plot_type likewise raises the
invalid-mode error with nothing drawn. -/
theorem C4_invalid_mode (df : DataFrame) (cols : List String) (m pt t : String)
    (hm1 : m ≠ "heatmap") (hm2 : m ≠ "pairplot")
    (hp1 : pt ≠ "heatmap") (hp2 : pt ≠ "scatter") :
    correlation_heatmap df cols m t = ⟨[], some (.invalidMode m), []⟩
    ∧ ∀ sel, df.selectCols cols = .ok sel →
        temperature_analysis df cols pt t
          = ⟨[], some (.invalidMode pt), [.selectCols cols]⟩ := by
  constructor
  · have h1 : (m == "heatmap") = false := beq_eq_false_iff_ne.mpr hm1
    have h2 : (m == "pairplot") = false := beq_eq_false_iff_ne.mpr hm2
    simp [correlation_heatmap, h1, h2]
  · intro sel hsel
    have h1 : (pt == "heatmap") = false := beq_eq_false_iff_ne.mpr hp1
    have h2 : (pt == "scatter") = false := beq_eq_false_iff_ne.mpr hp2
    simp [temperature_analysis, hsel, h1, h2]

/-- C4 witness: the mode string pie on a concrete dataset. -/
theorem C4_invalid_mode_witness :
    correlation_heatmap demoDf ["GHI"] "pie" "t"
        = ⟨[], some (.invalidMode "pie"), []⟩
    ∧ temperature_analysis demoDf ["GHI"] "pie" "t"
        = ⟨[], some (.invalidMode "pie"), [.selectCols ["GHI"]]⟩ :=
  ⟨(C4_invalid_mode demoDf ["GHI"] "pie" "pie" "t"
      (by decide) (by decide) (by decide) (by decide)).1,
   (C4_invalid_mode demoDf ["GHI"] "pie" "pie" "t"
      (by decide) (by decide) (by decide) (by decide)).2
      [("GHI", [1, 2])] rfl⟩

/-- C5 counterexample: on a dataset whose selected column is constant, the
heatmap-mode correlation matrix has the cell (0, 0) on its diagonal, whose
rendered value is 0/√0 (NaN in pandas), not 1, refuting the unconditional
unit diagonal. -/
theorem C5_counterexample :
    cellValue (((heatmapMatrixOf
        (correlation_heatmap constDf ["GHI"] "heatmap" "t")).getD 0 []).getD 0
        ((0 : ℚ), (1 : ℚ))) ≠ 1 := by
  have h : ((heatmapMatrixOf
      (correlation_heatmap constDf ["GHI"] "heatmap" "t")).getD 0 []).getD 0
      ((0 : ℚ), (1 : ℚ)) = ((0 : ℚ), (0 : ℚ)) := by
    norm_num [heatmapMatrixOf, correlation_heatmap, constDf, DataFrame.selectCols,
      DataFrame.getCol, Except.map, corrMatrix, corrCell, sxy, sprod, mean,
      List.getD]
  rw [h]
  simp [cellValue]

/-- C5 (amended): heatmap-mode correlation_heatmap renders a k × k matrix
over a selector of size k whose columns exist, and the matrix is
symmetric; a diagonal entry equals 1 provided its column has nonzero
centered square sum (is non-constant with at least two rows), while for a
constant column the entry is 0/0, rendered NaN by pandas, not 1. -/
theorem C5_corr_matrix (df : DataFrame) (cols : List String) (t : String)
    (sel : List (String × List ℚ)) (hsel : df.selectCols cols = .ok sel) :
    (heatmapMatrixOf (correlation_heatmap df cols "heatmap" t)).length
        = cols.length
    ∧ (∀ row ∈ heatmapMatrixOf (correlation_heatmap df cols "heatmap" t),
        row.length = cols.length)
    ∧ (∀ i j, ((heatmapMatrixOf
          (correlation_heatmap df cols "heatmap" t)).getD i []).getD j (0, 0)
        = ((heatmapMatrixOf
          (correlation_heatmap df cols "heatmap" t)).getD j []).getD i (0, 0))
    ∧ (∀ i, i < cols.length →
        sxy (sel.getD i ("", [])).2 (sel.getD i ("", [])).2 ≠ 0 →
        cellValue (((heatmapMatrixOf
          (correlation_heatmap df cols "heatmap" t)).getD i []).getD i (0, 0))
          = 1) := by
  have hM : heatmapMatrixOf (correlation_heatmap df cols "heatmap" t)
      = corrMatrix sel := by
    simp [correlation_heatmap, hsel, heatmapMatrixOf]
  have hlen : sel.length = cols.length := selectCols_ok_length df cols sel hsel
  refine ⟨?_, ?_, ?_, ?_⟩
  · rw [hM]; simp [corrMatrix, hlen]
  · intro row hrow
    rw [hM] at hrow
    simp only [corrMatrix, List.mem_map] at hrow
    obtain ⟨r, -, hr⟩ := hrow
    simp [← hr, hlen]
  · intro i j
    rw [hM]
    exact corrMatrix_getD_symm sel i j
  · intro i hi hnz
    rw [hM]
    have hi' : i < sel.length := hlen ▸ hi
    rw [corrMatrix_entry sel i i hi' hi']
    have hgd : sel.getD i ("", []) = sel.get ⟨i, hi'⟩ :=
      List.getD_eq_getElem sel ("", []) hi'
    rw [hgd] at hnz
    exact cellValue_corrCell_self _ hnz

/-- C5 witness: a 2 × 2 correlation matrix over two non-constant columns
has unit diagonal. -/
theorem C5_corr_matrix_witness :
    cellValue (((heatmapMatrixOf
        (correlation_heatmap demoDf ["GHI", "DNI"] "heatmap" "t")).getD 0
        []).getD 0 (0, 0)) = 1 :=
  (C5_corr_matrix demoDf ["GHI", "DNI"] "t" [("GHI", [1, 2]), ("DNI", [2, 3])]
      rfl).2.2.2 0 (by decide)
      (by norm_num [sxy, sprod, mean, List.getD])

/-- C6 (confirmed): the wind polar plot converts direction from degrees to
radians and scatters it against speed as radius on axes configured with
theta direction −1 (clockwise) and theta offset π/2 (zero at the top); on
those axes a 0-degree direction lands at the top reference angle π/2 and a
90-degree direction lands 90 degrees clockwise of it. -/
theorem C6_wind_polar (df : DataFrame) (ws wd t : String) (wsv wdv : List ℚ)
    (hwd : df.getCol wd = some wdv) (hws : df.getCol ws = some wsv) :
    (plot_wind_polar df ws wd t).shown
      = [.polarScatter (wdv.map deg2rad) wsv none "viridis" (-1) (Real.pi / 2)
          (some ws) t]
    ∧ screenAngle (Real.pi / 2) (-1) (deg2rad 0) = Real.pi / 2
    ∧ screenAngle (Real.pi / 2) (-1) (deg2rad 90)
        = screenAngle (Real.pi / 2) (-1) (deg2rad 0) - Real.pi / 2 := by
  refine ⟨?_, ?_, ?_⟩
  · simp [plot_wind_polar, hwd, hws]
  · simp [screenAngle, deg2rad]
  · simp only [screenAngle, deg2rad]
    push_cast
    ring

/-- C6 witness: the wind polar call on a concrete dataset with directions
0 and 90 degrees. -/
theorem C6_wind_polar_witness :
    (plot_wind_polar demoDf "WS" "WD" "t").shown
      = [.polarScatter (([0, 90] : List ℚ).map deg2rad) [1, 2] none "viridis"
          (-1) (Real.pi / 2) (some "WS") "t"]
    ∧ screenAngle (Real.pi / 2) (-1) (deg2rad 0) = Real.pi / 2
    ∧ screenAngle (Real.pi / 2) (-1) (deg2rad 90)
        = screenAngle (Real.pi / 2) (-1) (deg2rad 0) - Real.pi / 2 :=
  C6_wind_polar demoDf "WS" "WD" "t" [1, 2] [0, 90] rfl rfl

/-- C7 (code bug): the scatter call of plot_wind_polar passes cmap but no
per-point color data (the c argument is absent in the source), so the
points are not colored by wind speed; the figure records color data none
even though the color bar is labeled with the wind-speed column. -/
theorem C7_wind_polar_not_colored :
    (plot_wind_polar demoDf "WS" "WD" "t").shown
      = [.polarScatter (([0, 90] : List ℚ).map deg2rad) [1, 2] none "viridis"
          (-1) (Real.pi / 2) (some "WS") "t"] := by
  have h1 : demoDf.getCol "WD" = some [0, 90] := rfl
  have h2 : demoDf.getCol "WS" = some [1, 2] := rfl
  simp [plot_wind_polar, h1, h2]

/-- C8 (confirmed): temperature_analysis in heatmap mode renders the same
pairwise correlation matrix, annotated, as correlation_heatmap in heatmap
mode on the same dataset and selector; on a successful selection both show
exactly one annotated heatmap over corrMatrix of the selection (they
differ only in title and in the square-cells styling flag). -/
theorem C8_heatmap_refinement (df : DataFrame) (cols : List String)
    (t1 t2 : String) :
    heatmapMatrixOf (temperature_analysis df cols "heatmap" t1)
      = heatmapMatrixOf (correlation_heatmap df cols "heatmap" t2)
    ∧ ∀ sel, df.selectCols cols = .ok sel →
        (temperature_analysis df cols "heatmap" t1).shown
          = [.heatmapFig (corrMatrix sel) true ".2f" false
              ("Correlation Heatmap of " ++ t1)]
        ∧ (correlation_heatmap df cols "heatmap" t2).shown
          = [.heatmapFig (corrMatrix sel) true ".2f" true t2] := by
  constructor
  · cases hsel : df.selectCols cols with
    | error c => simp [temperature_analysis, correlation_heatmap, hsel,
        heatmapMatrixOf]
    | ok sel => simp [temperature_analysis, correlation_heatmap, hsel,
        heatmapMatrixOf]
  · intro sel hsel
    exact ⟨by simp [temperature_analysis, hsel],
      by simp [correlation_heatmap, hsel]⟩

/-- C8 witness: the two heatmap calls on a concrete dataset and selector
render the same annotated matrix. -/
theorem C8_heatmap_refinement_witness :
    heatmapMatrixOf (temperature_analysis demoDf ["GHI"] "heatmap" "t1")
      = heatmapMatrixOf (correlation_heatmap demoDf ["GHI"] "heatmap" "t2")
    ∧ (temperature_analysis demoDf ["GHI"] "heatmap" "t1").shown
        = [.heatmapFig (corrMatrix [("GHI", [1, 2])]) true ".2f" false
            ("Correlation Heatmap of " ++ "t1")]
    ∧ (correlation_heatmap demoDf ["GHI"] "heatmap" "t2").shown
        = [.heatmapFig (corrMatrix [("GHI", [1, 2])]) true ".2f" true "t2"] :=
  ⟨(C8_heatmap_refinement demoDf ["GHI"] "t1" "t2").1,
   ((C8_heatmap_refinement demoDf ["GHI"] "t1" "t2").2 [("GHI", [1, 2])] rfl).1,
   ((C8_heatmap_refinement demoDf ["GHI"] "t1" "t2").2 [("GHI", [1, 2])] rfl).2⟩

/-- C9 (confirmed): every plotting function is a pure function of its
inputs: two calls with identical inputs produce identical results, both
the shown figures with their data content and the raised error. -/
theorem C9_deterministic (df1 df2 : DataFrame) (dfs1 dfs2 : List DataFrame)
    (cols scols vs names : List String) (m pt ws wd t : String) (bins : Nat)
    (hdf : df1 = df2) (hdfs : dfs1 = dfs2) :
    plot_time_series df1 t = plot_time_series df2 t
    ∧ plot_cleaning_impact df1 scols t = plot_cleaning_impact df2 scols t
    ∧ correlation_heatmap df1 cols m t = correlation_heatmap df2 cols m t
    ∧ scatter_matrix df1 cols t = scatter_matrix df2 cols t
    ∧ plot_wind_polar df1 ws wd t = plot_wind_polar df2 ws wd t
    ∧ temperature_analysis df1 cols pt t = temperature_analysis df2 cols pt t
    ∧ plot_histograms dfs1 vs names bins = plot_histograms dfs2 vs names bins := by
  subst hdf
  subst hdfs
  exact ⟨rfl, rfl, rfl, rfl, rfl, rfl, rfl⟩

/-- C9 witness: identical repeated calls on a concrete dataset agree. -/
theorem C9_deterministic_witness :
    plot_time_series demoDf "t" = plot_time_series demoDf "t"
    ∧ plot_cleaning_impact demoDf ["GHI"] "t"
        = plot_cleaning_impact demoDf ["GHI"] "t"
    ∧ correlation_heatmap demoDf ["GHI"] "heatmap" "t"
        = correlation_heatmap demoDf ["GHI"] "heatmap" "t"
    ∧ scatter_matrix demoDf ["GHI"] "t" = scatter_matrix demoDf ["GHI"] "t"
    ∧ plot_wind_polar demoDf "WS" "WD" "t" = plot_wind_polar demoDf "WS" "WD" "t"
    ∧ temperature_analysis demoDf ["GHI"] "heatmap" "t"
        = temperature_analysis demoDf ["GHI"] "heatmap" "t"
    ∧ plot_histograms [histDfA] ["GHI"] ["A"] 30
        = plot_histograms [histDfA] ["GHI"] ["A"] 30 :=
  C9_deterministic demoDf demoDf [histDfA] [histDfA] ["GHI"] ["GHI"] ["GHI"]
    ["A"] "heatmap" "heatmap" "WS" "WD" "t" 30 rfl rfl

/-- C10 (confirmed): the dataframe operations every function performs are
reads only; replaying the operation trace of any call against any
dataframe state leaves it unchanged, so no input dataframe is modified
whether the call returns normally or raises. -/
theorem C10_no_mutation (df d : DataFrame) (dfs : List DataFrame)
    (cols scols vs names : List String) (m pt ws wd t : String) (bins : Nat) :
    List.foldl (fun s op => DfOp.apply op s) df (plot_time_series df t).trace = df
    ∧ List.foldl (fun s op => DfOp.apply op s) df
        (plot_cleaning_impact df scols t).trace = df
    ∧ List.foldl (fun s op => DfOp.apply op s) df
        (correlation_heatmap df cols m t).trace = df
    ∧ List.foldl (fun s op => DfOp.apply op s) df
        (scatter_matrix df cols t).trace = df
    ∧ List.foldl (fun s op => DfOp.apply op s) df
        (plot_wind_polar df ws wd t).trace = df
    ∧ List.foldl (fun s op => DfOp.apply op s) df
        (temperature_analysis df cols pt t).trace = df
    ∧ List.foldl (fun s op => DfOp.apply op s) d
        (plot_histograms dfs vs names bins).trace = d :=
  ⟨foldl_apply_eq _ df, foldl_apply_eq _ df, foldl_apply_eq _ df,
   foldl_apply_eq _ df, foldl_apply_eq _ df, foldl_apply_eq _ df,
   foldl_apply_eq _ d⟩

end PlotFacade
